import Mathlib

/-!
Verification of the offline reconnection utility (`serverConnectionErrors`):
the `startOfflineReconnection` retry engine, the `OfflineState` failure
aggregator, and the `isNetworkError` helper.

The engine is embedded as a deterministic interpreter over a script of
attempt outcomes.  Each `Attempt` records what the outside world does during
one scheduled invocation of `attemptReconnect`: whether `cancel()` arrives
while the timer for the attempt is still pending, whether it arrives during
the awaited health check or during the awaited reconnection callback, and
how the health check and the callback resolve.  The interpreter threads the
closure state (`reconnected`, `session`, `timeoutId`, `failureCount`,
`cancelled`, plus a counter of `onCleanup` invocations) and accumulates an
observable log (health-check invocations, callback invocations, assignments
of the `reconnected` flag, notification strings, session stores).
-/

namespace Happier

/-- An error value as classified by the engine's catch block: whether it is
an axios error and which HTTP response status it carries, if any. -/
structure JsError where
  isAxiosError : Bool
  status : Option Nat
deriving DecidableEq

/-- `axios.isAxiosError(e) && e.response?.status === 401`. -/
def JsError.isAuth (e : JsError) : Bool :=
  e.isAxiosError && e.status == some 401

/-- Success notification string from `attemptReconnect` step 3. -/
def successMsg : String := "✅ Reconnected! Session syncing in background."

/-- Auth-failure notification string from the 401 branch of the catch block. -/
def authMsg : String := "❌ Authentication failed. Please re-authenticate with `happy auth`."

/-- The closure state of one `startOfflineReconnection` call.  `timeoutId`
is `some ()` while a timer object reference is held (it stays held, stale,
after the timer fires, as in the source); `cleanupCalls` counts invocations
of `config.onCleanup`.  Sessions are `Option σ`, with `none` standing for
the `null`/`undefined` value. -/
structure EngineState (σ : Type) where
  reconnected : Bool
  session : Option σ
  timeoutId : Option Unit
  failureCount : Nat
  cancelled : Bool
  cleanupCalls : Nat

/-- State right after `startOfflineReconnection` returns: first timer armed,
nothing reconnected, no failures, not cancelled. -/
def initState (σ : Type) : EngineState σ :=
  ⟨false, none, some (), 0, false, 0⟩

/-- The handle's `cancel` closure: sets `cancelled`, clears the pending
timer if any (either way `timeoutId` ends up null), and invokes
`config.onCleanup`. -/
def cancelHandle {σ : Type} (s : EngineState σ) : EngineState σ :=
  { s with cancelled := true, timeoutId := none, cleanupCalls := s.cleanupCalls + 1 }

/-- External behaviour during one scheduled firing of `attemptReconnect`:
whether `cancel()` arrives while this attempt's timer is pending (in which
case the timer is cleared and the attempt never runs), whether it arrives
during the awaited health check or callback, and the two awaited results. -/
structure Attempt (σ : Type) where
  cancelBefore : Bool
  cancelDuringHC : Bool
  hc : Except JsError Unit
  cancelDuringCB : Bool
  cb : Except JsError (Option σ)

/-- Observable log of a run: numbers of health-check and reconnection
callback invocations, number of assignments `reconnected := true`, the
notification strings passed to `onNotify` in order, and the values stored
into `session` in order. -/
structure RunLog (σ : Type) where
  hcCalls : Nat
  cbCalls : Nat
  reconnectSets : Nat
  notifs : List String
  stores : List (Option σ)

/-- Empty log. -/
def RunLog.empty (σ : Type) : RunLog σ := ⟨0, 0, 0, [], []⟩

/-- Concatenation of logs of consecutive run segments. -/
def RunLog.app {σ : Type} (l₁ l₂ : RunLog σ) : RunLog σ :=
  ⟨l₁.hcCalls + l₂.hcCalls, l₁.cbCalls + l₂.cbCalls,
   l₁.reconnectSets + l₂.reconnectSets, l₁.notifs ++ l₂.notifs,
   l₁.stores ++ l₂.stores⟩

/-- One firing of `attemptReconnect`, translated clause by clause from the
source.  Returns the new state, the log of this attempt, and whether a
retry timer was scheduled (`timeoutId = setTimeout(attemptReconnect, delay)`
in the catch block). -/
def attemptReconnect {σ : Type} (s : EngineState σ) (a : Attempt σ) :
    EngineState σ × RunLog σ × Bool :=
  if s.reconnected || s.cancelled then (s, RunLog.empty σ, false)
  else
    -- `await healthCheck()`; a cancel() arriving during the await takes
    -- effect before the continuation resumes.
    let s₁ := if a.cancelDuringHC then cancelHandle s else s
    match a.hc with
    | Except.error e =>
      if e.isAuth then
        -- 401: notify and return without scheduling a retry.
        (s₁, ⟨1, 0, 0, [authMsg], []⟩, false)
      else
        let s₂ := { s₁ with failureCount := s₁.failureCount + 1 }
        if s₂.cancelled then (s₂, ⟨1, 0, 0, [], []⟩, false)
        else ({ s₂ with timeoutId := some () }, ⟨1, 0, 0, [], []⟩, true)
    | Except.ok _ =>
      -- Re-check after the awaited health check.
      if s₁.cancelled then (s₁, ⟨1, 0, 0, [], []⟩, false)
      else
        -- `session = await config.onReconnected()`
        let s₂ := if a.cancelDuringCB then cancelHandle s₁ else s₁
        match a.cb with
        | Except.error e =>
          if e.isAuth then (s₂, ⟨1, 1, 0, [authMsg], []⟩, false)
          else
            let s₃ := { s₂ with failureCount := s₂.failureCount + 1 }
            if s₃.cancelled then (s₃, ⟨1, 1, 0, [], []⟩, false)
            else ({ s₃ with timeoutId := some () }, ⟨1, 1, 0, [], []⟩, true)
        | Except.ok v =>
          -- session is assigned even if cancelled - the operation completed.
          let s₃ := { s₂ with session := v }
          if s₃.cancelled then (s₃, ⟨1, 1, 0, [], [v]⟩, false)
          else ({ s₃ with reconnected := true },
                ⟨1, 1, 1, [successMsg], [v]⟩, false)

/-- A run of the engine over a script of attempts.  A `cancelBefore` entry
models a `cancel()` call while the timer is pending: the timer is cleared,
the attempt never fires, and the run ends.  Otherwise the attempt fires and
the run continues exactly when a retry was scheduled. -/
def runEngine {σ : Type} (s : EngineState σ) : List (Attempt σ) → EngineState σ × RunLog σ
  | [] => (s, RunLog.empty σ)
  | a :: rest =>
    if a.cancelBefore then (cancelHandle s, RunLog.empty σ)
    else
      match attemptReconnect s a with
      | (s₁, l₁, true) =>
        let r := runEngine s₁ rest
        (r.1, l₁.app r.2)
      | (s₁, l₁, false) => (s₁, l₁)

/-- An attempt that fails with a non-auth error and sees no `cancel()`:
it increments the failure counter and schedules the next attempt. -/
def Attempt.retryable {σ : Type} (a : Attempt σ) : Bool :=
  !a.cancelBefore && !a.cancelDuringHC && !a.cancelDuringCB &&
    (match a.hc with
     | Except.error e => !e.isAuth
     | Except.ok _ =>
       match a.cb with
       | Except.error e => !e.isAuth
       | Except.ok _ => false)

/-- Number of `onReconnected` invocations an attempt that fires and is not
abandoned after the health check performs: 1 when the health check resolves,
0 when it throws. -/
def Attempt.cbTries {σ : Type} (a : Attempt σ) : Nat :=
  match a.hc with
  | Except.ok _ => 1
  | Except.error _ => 0

/-- Attempt whose health check throws `e` (no cancellation). -/
def mkHcFail {σ : Type} (e : JsError) : Attempt σ :=
  ⟨false, false, Except.error e, false, Except.error e⟩

/-- Attempt whose health check resolves and whose callback throws `e`. -/
def mkCbFail {σ : Type} (e : JsError) : Attempt σ :=
  ⟨false, false, Except.ok (), false, Except.error e⟩

/-- Attempt whose health check and callback both resolve, producing `v`. -/
def mkSuccess {σ : Type} (v : Option σ) : Attempt σ :=
  ⟨false, false, Except.ok (), false, Except.ok v⟩

/-- Attempt where `cancel()` arrives while the callback is in flight and the
callback then resolves with `v`. -/
def mkCancelDuringCb {σ : Type} (v : Option σ) : Attempt σ :=
  ⟨false, false, Except.ok (), true, Except.ok v⟩

/-! ### Connection state aggregator and error-code helpers -/

/-- `NETWORK_ERROR_CODES`: all network error codes that trigger offline
mode. -/
def NETWORK_ERROR_CODES : List String :=
  ["ECONNREFUSED", "ENOTFOUND", "ETIMEDOUT",
   "ECONNRESET", "EHOSTUNREACH", "ENETUNREACH"]

/-- `isNetworkError(code)`: `code !== undefined && NETWORK_ERROR_CODES.includes(code)`.
`none` models the `undefined` argument. -/
def isNetworkError : Option String → Bool
  | none => false
  | some code => NETWORK_ERROR_CODES.contains code

/-- `ERROR_DESCRIPTIONS` record lookup; `none` models a missing key. -/
def ERROR_DESCRIPTIONS : String → Option String
  | "ECONNREFUSED" => some "server not accepting connections"
  | "ENOTFOUND" => some "server hostname not found"
  | "ETIMEDOUT" => some "connection timed out"
  | "ECONNRESET" => some "connection reset by server"
  | "EHOSTUNREACH" => some "server host unreachable"
  | "ENETUNREACH" => some "network unreachable"
  | "401" => some "authentication failed - run `happy auth`"
  | "403" => some "access forbidden"
  | "404" => some "endpoint not found, check server deployment"
  | "500" => some "server internal error"
  | "502" => some "bad gateway"
  | "503" => some "service unavailable"
  | _ => none

/-- `OfflineFailure`: failure context for accumulating multiple failures
into one warning. -/
structure OfflineFailure where
  operation : String
  caller : Option String
  errorCode : Option String
  url : Option String
  details : List String
deriving DecidableEq

/-- The aggregator's two-valued mode. -/
inductive ConnMode
  | online
  | offline
deriving DecidableEq

/-- `Map.set` on a JS `Map` viewed as an insertion-ordered association
list: replace in place when the key is present, append otherwise. -/
def mapSet (m : List (String × OfflineFailure)) (k : String) (v : OfflineFailure) :
    List (String × OfflineFailure) :=
  if m.any (fun p => p.1 == k) then
    m.map (fun p => if p.1 == k then (k, v) else p)
  else m ++ [(k, v)]

/-- The state of the `OfflineState` aggregator: mode, failures keyed by
operation name, backend label. -/
structure OfflineState where
  state : ConnMode
  failures : List (String × OfflineFailure)
  backend : String
deriving DecidableEq

/-- The singleton `connectionState` as constructed: online, no failures,
backend `Claude`. -/
def connectionState : OfflineState := ⟨ConnMode.online, [], "Claude"⟩

/-- `Array.prototype.join(sep)` on a list of strings. -/
def joinSep (sep : String) : List String → String
  | [] => ""
  | [x] => x
  | x :: xs => x ++ sep ++ joinSep sep xs

/-- The per-failure fragment of the warning line:
`${f.operation} failed: ${desc}${url}`. -/
def describeFailure (f : OfflineFailure) : String :=
  let desc := match f.errorCode with
    | some c => c ++ " - " ++ ((ERROR_DESCRIPTIONS c).getD "unknown error")
    | none => "unknown error"
  let url := match f.url with
    | some u => " at " ++ u
    | none => ""
  f.operation ++ " failed: " ++ desc ++ url

/-- `OfflineState.print`: the consolidated warning line plus the indented
detail lines (text content; the yellow chalk colouring of detail lines is a
display concern and is not modelled). -/
def OfflineState.print (s : OfflineState) : String × List String :=
  let summary := joinSep "; " (s.failures.map (fun p => describeFailure p.2))
  ("⚠️  Happy server unreachable, offline mode with auto-reconnect enabled - error details: "
     ++ summary,
   (List.flatten (s.failures.map (fun p => p.2.details))).map
     (fun line => "   → " ++ line))

/-- `OfflineState.fail`: store the failure under its operation key; on an
`online` → `offline` transition, print once.  The second component is the
print event: `none` when nothing was printed, otherwise the warning line and
the detail lines. -/
def OfflineState.fail (s : OfflineState) (f : OfflineFailure) :
    OfflineState × Option (String × List String) :=
  let s₁ : OfflineState := { s with failures := mapSet s.failures f.operation f }
  match s.state with
  | ConnMode.online =>
    let s₂ : OfflineState := { s₁ with state := ConnMode.offline }
    (s₂, some s₂.print)
  | ConnMode.offline => (s₁, none)

/-- `OfflineState.recover`: reset on reconnection. -/
def OfflineState.recover (s : OfflineState) : OfflineState :=
  { s with state := ConnMode.online, failures := [] }

/-- `OfflineState.isOffline`. -/
def OfflineState.isOffline (s : OfflineState) : Bool :=
  s.state == ConnMode.offline

/-- `OfflineState.setBackend`. -/
def OfflineState.setBackend (s : OfflineState) (name : String) : OfflineState :=
  { s with backend := name }

/-- `OfflineState.reset`: full state reset for testing. -/
def OfflineState.reset (_s : OfflineState) : OfflineState :=
  ⟨ConnMode.online, [], "Claude"⟩

/-- The list of lines a print event put on the console. -/
def printedLines : Option (String × List String) → List String
  | none => []
  | some (w, ds) => w :: ds

/-- Whether the character list `p` is a prefix of `l` (Boolean, by `==`). -/
def isPrefixList : List Char → List Char → Bool
  | [], _ => true
  | _ :: _, [] => false
  | p :: ps, c :: cs => p == c && isPrefixList ps cs

/-- Whether the character list `pat` occurs inside `l`. -/
def hasInfixList (pat : List Char) : List Char → Bool
  | [] => isPrefixList pat []
  | c :: cs => isPrefixList pat (c :: cs) || hasInfixList pat cs

/-- Substring test on strings, via their character lists. -/
def strContains (s pat : String) : Bool :=
  hasInfixList pat.data s.data

/-- Scenario C, first caller: `fail({operation:'Session creation', errorCode:'404'})`. -/
def failSession : OfflineFailure :=
  ⟨"Session creation", none, some "404", none, []⟩

/-- Scenario C, second caller:
`fail({operation:'Machine registration', errorCode:'ECONNREFUSED'})`. -/
def failMachine : OfflineFailure :=
  ⟨"Machine registration", none, some "ECONNREFUSED", none, []⟩

/-- The one warning line actually printed in Scenario C. -/
def scenarioCLine : String :=
  "⚠️  Happy server unreachable, offline mode with auto-reconnect enabled - error details: Session creation failed: 404 - endpoint not found, check server deployment"

/-! ### Basic lemmas about logs and single attempts -/

lemma RunLog.empty_app {σ : Type} (l : RunLog σ) : (RunLog.empty σ).app l = l := by
  cases l; simp [RunLog.app, RunLog.empty]

lemma RunLog.app_assoc {σ : Type} (l₁ l₂ l₃ : RunLog σ) :
    (l₁.app l₂).app l₃ = l₁.app (l₂.app l₃) := by
  cases l₁; cases l₂; cases l₃
  simp [RunLog.app, Nat.add_assoc]

/-- A guarded firing (already reconnected or cancelled) does nothing. -/
lemma attemptReconnect_guard {σ : Type} (s : EngineState σ) (a : Attempt σ)
    (h : (s.reconnected || s.cancelled) = true) :
    attemptReconnect s a = (s, RunLog.empty σ, false) := by
  unfold attemptReconnect
  rw [if_pos h]

/-- A retryable attempt fired from a live state increments the failure
counter, re-arms the timer, performs no store, sets no flag and sends no
notification. -/
lemma attemptReconnect_retryable {σ : Type} (s : EngineState σ) (a : Attempt σ)
    (ha : a.retryable = true) (hr : s.reconnected = false) (hcan : s.cancelled = false) :
    attemptReconnect s a =
      ({ s with failureCount := s.failureCount + 1, timeoutId := some () },
       ⟨1, a.cbTries, 0, [], []⟩, true) := by
  unfold Attempt.retryable at ha
  simp only [Bool.and_eq_true, Bool.not_eq_true'] at ha
  obtain ⟨⟨⟨h1, h2⟩, h3⟩, h4⟩ := ha
  unfold attemptReconnect Attempt.cbTries
  cases hhc : a.hc with
  | error e =>
    rw [hhc] at h4
    simp only [Bool.not_eq_true'] at h4
    simp [hr, hcan, h2, h4]
  | ok u =>
    rw [hhc] at h4
    cases hcb : a.cb with
    | error e =>
      rw [hcb] at h4
      simp only [Bool.not_eq_true'] at h4
      simp [hr, hcan, h2, h3, h4]
    | ok v =>
      rw [hcb] at h4
      simp at h4

/-! ### Run-level lemmas -/

/-- After `cancel()`, a run performs no observable action: no health check,
no callback, no notification, no store. -/
lemma runEngine_cancelled {σ : Type} (att : List (Attempt σ)) :
    ∀ s : EngineState σ, s.cancelled = true → (runEngine s att).2 = RunLog.empty σ := by
  intro s h
  cases att with
  | nil => simp [runEngine]
  | cons a rest =>
    by_cases hb : a.cancelBefore = true
    · simp [runEngine, hb]
    · have hg := attemptReconnect_guard s a (by simp [h])
      simp [runEngine, hb, hg]

/-- The `reconnected` flag is never unset: any run from a reconnected state
ends reconnected. -/
lemma runEngine_mono_reconnected {σ : Type} (att : List (Attempt σ))
    (s : EngineState σ) (h : s.reconnected = true) :
    (runEngine s att).1.reconnected = true := by
  cases att with
  | nil => simpa [runEngine]
  | cons a rest =>
    by_cases hb : a.cancelBefore = true
    · simp [runEngine, hb, cancelHandle, h]
    · have hg := attemptReconnect_guard s a (by simp [h])
      simp [runEngine, hb, hg, h]

/-- Running a block of retryable attempts followed by `rest` advances the
failure counter by the block's length, logs one health check per attempt and
one callback invocation per attempt whose health check resolved, and then
continues with `rest`. -/
lemma runEngine_retryable_append {σ : Type} (pre rest : List (Attempt σ))
    (hpre : ∀ a ∈ pre, a.retryable = true) :
    ∀ s : EngineState σ, s.reconnected = false → s.cancelled = false →
      s.timeoutId = some () →
    runEngine s (pre ++ rest) =
      ((runEngine { s with failureCount := s.failureCount + pre.length } rest).1,
       RunLog.app ⟨pre.length, (pre.map Attempt.cbTries).sum, 0, [], []⟩
         (runEngine { s with failureCount := s.failureCount + pre.length } rest).2) := by
  induction pre with
  | nil =>
    intro s hr hc ht
    have hs : ({ s with failureCount := s.failureCount + 0 } : EngineState σ) = s := by
      cases s; simp
    simp [hs, RunLog.app]
  | cons a t ih =>
    intro s hr hc ht
    have ha : a.retryable = true := hpre a (by simp)
    have hpre' : ∀ b ∈ t, b.retryable = true := fun b hb => hpre b (by simp [hb])
    have hb : a.cancelBefore = false := by
      unfold Attempt.retryable at ha
      simp only [Bool.and_eq_true, Bool.not_eq_true'] at ha
      exact ha.1.1.1
    obtain ⟨rec, sess, tid, fc, can, cln⟩ := s
    simp only at hr hc ht
    subst hr; subst hc; subst ht
    have hstep := attemptReconnect_retryable ⟨false, sess, some (), fc, false, cln⟩ a ha rfl rfl
    have hih := ih hpre' ⟨false, sess, some (), fc + 1, false, cln⟩ rfl rfl rfl
    simp only [List.cons_append, runEngine, hb, Bool.false_eq_true, if_false]
    rw [hstep]
    simp only [List.append_eq]
    rw [hih]
    simp only [RunLog.app, List.length_cons, List.map_cons, List.sum_cons,
      List.nil_append]
    have harith : fc + (t.length + 1) = fc + 1 + t.length := by omega
    rw [harith]
    refine congrArg (Prod.mk _) ?_
    simp only [RunLog.mk.injEq, and_true, true_and]
    omega

/-- Any single firing stores at most one session value, sends at most one
notification and sets the `reconnected` flag at most once; and whenever it
schedules a retry it did none of these. -/
lemma attemptReconnect_log_bound {σ : Type} (s : EngineState σ) (a : Attempt σ) :
    ((attemptReconnect s a).2.1.stores.length ≤ 1 ∧
     (attemptReconnect s a).2.1.notifs.length ≤ 1 ∧
     (attemptReconnect s a).2.1.reconnectSets ≤ 1) ∧
    ((attemptReconnect s a).2.2 = true →
      (attemptReconnect s a).2.1.stores = [] ∧
      (attemptReconnect s a).2.1.notifs = [] ∧
      (attemptReconnect s a).2.1.reconnectSets = 0) := by
  unfold attemptReconnect
  repeat' split
  all_goals by_cases hcs : s.cancelled = true <;>
    simp [RunLog.empty, cancelHandle, hcs]

/-- Over any run: at most one session store, at most one notification, and
the `reconnected` flag is assigned at most once. -/
lemma runEngine_log_bound {σ : Type} (att : List (Attempt σ)) :
    ∀ s : EngineState σ,
      (runEngine s att).2.stores.length ≤ 1 ∧
      (runEngine s att).2.notifs.length ≤ 1 ∧
      (runEngine s att).2.reconnectSets ≤ 1 := by
  induction att with
  | nil => intro s; simp [runEngine, RunLog.empty]
  | cons a rest ih =>
    intro s
    by_cases hb : a.cancelBefore = true
    · simp [runEngine, hb, RunLog.empty]
    · have hbb := attemptReconnect_log_bound s a
      rcases hA : attemptReconnect s a with ⟨s₁, l₁, next⟩
      rw [hA] at hbb
      cases next with
      | true =>
        obtain ⟨hst, hnt, hrc⟩ := hbb.2 rfl
        dsimp only at hst hnt hrc
        have hrec := ih s₁
        simp [runEngine, hb, hA, RunLog.app, hst, hnt, hrc]
        exact ⟨hrec.1, hrec.2.1, hrec.2.2⟩
      | false =>
        simp [runEngine, hb, hA]
        exact hbb.1

lemma sum_map_zero {α : Type} (l : List α) : (l.map (fun _ => (0 : Nat))).sum = 0 := by
  induction l with
  | nil => simp
  | cons a t ih => simp [ih]

lemma mkHcFail_retryable {σ : Type} (es : List JsError)
    (hes : ∀ e ∈ es, e.isAuth = false) :
    ∀ a ∈ (es.map mkHcFail : List (Attempt σ)), a.retryable = true := by
  intro a ha
  rw [List.mem_map] at ha
  obtain ⟨e, he, rfl⟩ := ha
  simp [Attempt.retryable, mkHcFail, hes e he]

/-- Full characterisation of a run with `es.length` health-check failures
(none of them 401) followed by one attempt whose health check and callback
resolve. -/
lemma runEngine_hcFails_then_success {σ : Type} (es : List JsError)
    (hes : ∀ e ∈ es, e.isAuth = false) (v : Option σ) :
    runEngine (initState σ) (es.map mkHcFail ++ [mkSuccess v]) =
      (⟨true, v, some (), es.length, false, 0⟩,
       ⟨es.length + 1, 1, 1, [successMsg], [v]⟩) := by
  have happ := runEngine_retryable_append (es.map mkHcFail) [mkSuccess v]
      (mkHcFail_retryable es hes) (initState σ) rfl rfl rfl
  rw [happ]
  simp [runEngine, attemptReconnect, mkSuccess, initState, RunLog.app, RunLog.empty,
    List.map_map, Attempt.cbTries, mkHcFail, sum_map_zero]
  rw [show (Attempt.cbTries ∘ (mkHcFail : JsError → Attempt σ)) = fun _ => (0 : Nat) from
    funext (fun _ => rfl), sum_map_zero]

/-- Full characterisation of a run where, after a block of retryable
attempts, the health check throws a 401: one auth notification, no callback
invocation in that attempt, no retry, and the whole tail is never reached. -/
lemma runEngine_pre_then_hcAuth {σ : Type} (pre : List (Attempt σ))
    (hpre : ∀ a ∈ pre, a.retryable = true) (e : JsError) (he : e.isAuth = true)
    (suffix : List (Attempt σ)) :
    runEngine (initState σ) (pre ++ mkHcFail e :: suffix) =
      (⟨false, none, some (), pre.length, false, 0⟩,
       ⟨pre.length + 1, (pre.map Attempt.cbTries).sum, 0, [authMsg], []⟩) := by
  have happ := runEngine_retryable_append pre (mkHcFail e :: suffix) hpre
      (initState σ) rfl rfl rfl
  rw [happ]
  simp [runEngine, attemptReconnect, mkHcFail, initState, RunLog.app, he]

/-- As `runEngine_pre_then_hcAuth`, but the 401 is thrown by the
reconnection callback: the callback was invoked in the final attempt. -/
lemma runEngine_pre_then_cbAuth {σ : Type} (pre : List (Attempt σ))
    (hpre : ∀ a ∈ pre, a.retryable = true) (e : JsError) (he : e.isAuth = true)
    (suffix : List (Attempt σ)) :
    runEngine (initState σ) (pre ++ mkCbFail e :: suffix) =
      (⟨false, none, some (), pre.length, false, 0⟩,
       ⟨pre.length + 1, (pre.map Attempt.cbTries).sum + 1, 0, [authMsg], []⟩) := by
  have happ := runEngine_retryable_append pre (mkCbFail e :: suffix) hpre
      (initState σ) rfl rfl rfl
  rw [happ]
  simp [runEngine, attemptReconnect, mkCbFail, initState, RunLog.app, he]

/-- Full characterisation of a run where `cancel()` arrives while the
reconnection callback of the final attempt is in flight and the callback
then resolves with `v`: the session is stored, but no flag is set and no
notification is sent. -/
lemma runEngine_pre_then_cancelDuringCb {σ : Type} (pre : List (Attempt σ))
    (hpre : ∀ a ∈ pre, a.retryable = true) (v : Option σ) :
    runEngine (initState σ) (pre ++ [mkCancelDuringCb v]) =
      (⟨false, v, none, pre.length, true, 1⟩,
       ⟨pre.length + 1, (pre.map Attempt.cbTries).sum + 1, 0, [], [v]⟩) := by
  have happ := runEngine_retryable_append pre [mkCancelDuringCb v] hpre
      (initState σ) rfl rfl rfl
  rw [happ]
  simp [runEngine, attemptReconnect, mkCancelDuringCb, initState, RunLog.app,
    cancelHandle]

/-- A run of pure retryable attempts, in isolation. -/
lemma runEngine_pre_only {σ : Type} (pre : List (Attempt σ))
    (hpre : ∀ a ∈ pre, a.retryable = true) :
    runEngine (initState σ) pre =
      (⟨false, none, some (), pre.length, false, 0⟩,
       ⟨pre.length, (pre.map Attempt.cbTries).sum, 0, [], []⟩) := by
  have happ := runEngine_retryable_append pre [] hpre (initState σ) rfl rfl rfl
  rw [List.append_nil] at happ
  rw [happ]
  simp [runEngine, initState, RunLog.app, RunLog.empty]

/-! ### Claim theorems -/

/-- C1: for every run in which the health check fails finitely many times
(with non-401 errors) and then succeeds, with the callback then resolving,
the engine invokes the reconnection callback exactly once and sets the
reconnected flag exactly once (so `isReconnected()` becomes true exactly
once), regardless of how many prior failures occurred. -/
theorem reconnect_callback_called_once {σ : Type} (es : List JsError)
    (hes : ∀ e ∈ es, e.isAuth = false) (v : Option σ) :
    (runEngine (initState σ) (es.map mkHcFail ++ [mkSuccess v])).2.cbCalls = 1 ∧
    (runEngine (initState σ) (es.map mkHcFail ++ [mkSuccess v])).2.reconnectSets = 1 ∧
    (runEngine (initState σ) (es.map mkHcFail ++ [mkSuccess v])).1.reconnected = true := by
  rw [runEngine_hcFails_then_success es hes v]
  exact ⟨rfl, rfl, rfl⟩

theorem reconnect_callback_called_once_witness :
    (∀ e ∈ [(⟨false, some 500⟩ : JsError), ⟨false, none⟩], e.isAuth = false) ∧
    ((runEngine (initState Nat)
        (([(⟨false, some 500⟩ : JsError), ⟨false, none⟩].map mkHcFail) ++
          [mkSuccess (some 7)])).2.cbCalls = 1 ∧
     (runEngine (initState Nat)
        (([(⟨false, some 500⟩ : JsError), ⟨false, none⟩].map mkHcFail) ++
          [mkSuccess (some 7)])).2.reconnectSets = 1 ∧
     (runEngine (initState Nat)
        (([(⟨false, some 500⟩ : JsError), ⟨false, none⟩].map mkHcFail) ++
          [mkSuccess (some 7)])).1.reconnected = true) :=
  ⟨by decide, reconnect_callback_called_once _ (by decide) _⟩

/-- C2: a 401 is terminal.  When it comes from the health check the
callback is not invoked in that attempt; either way no further attempt is
ever scheduled (appending any suffix to the script changes nothing), and
the run's notifications are exactly the single auth-failure message. -/
theorem auth_error_terminal {σ : Type} (pre suffix : List (Attempt σ))
    (hpre : ∀ a ∈ pre, a.retryable = true) (e : JsError) (he : e.isAuth = true) :
    (runEngine (initState σ) (pre ++ mkHcFail e :: suffix)).2.notifs = [authMsg] ∧
    (runEngine (initState σ) (pre ++ mkHcFail e :: suffix)).2.cbCalls =
      (runEngine (initState σ) pre).2.cbCalls ∧
    runEngine (initState σ) (pre ++ mkHcFail e :: suffix) =
      runEngine (initState σ) (pre ++ [mkHcFail e]) ∧
    (runEngine (initState σ) (pre ++ mkCbFail e :: suffix)).2.notifs = [authMsg] ∧
    runEngine (initState σ) (pre ++ mkCbFail e :: suffix) =
      runEngine (initState σ) (pre ++ [mkCbFail e]) := by
  rw [runEngine_pre_then_hcAuth pre hpre e he suffix,
    runEngine_pre_then_hcAuth pre hpre e he [],
    runEngine_pre_then_cbAuth pre hpre e he suffix,
    runEngine_pre_then_cbAuth pre hpre e he [],
    runEngine_pre_only pre hpre]
  exact ⟨rfl, rfl, rfl, rfl, rfl⟩

theorem auth_error_terminal_witness :
    ((⟨true, some 401⟩ : JsError).isAuth = true) ∧
    (runEngine (initState Nat)
        ([mkHcFail ⟨false, some 500⟩] ++
          mkHcFail ⟨true, some 401⟩ :: [mkSuccess (some 3)])).2.notifs = [authMsg] :=
  ⟨by decide,
   (auth_error_terminal [mkHcFail ⟨false, some 500⟩] [mkSuccess (some 3)]
      (by decide) ⟨true, some 401⟩ (by decide)).1⟩

/-- C3: if `cancel()` arrives while the reconnection callback is in flight
and the callback later resolves with a value, that value is stored and
visible through `getSession()`, but no notification is sent and
`isReconnected()` stays false. -/
theorem cancel_during_callback_preserves_session {σ : Type} (pre : List (Attempt σ))
    (hpre : ∀ a ∈ pre, a.retryable = true) (v : Option σ) :
    (runEngine (initState σ) (pre ++ [mkCancelDuringCb v])).1.session = v ∧
    (runEngine (initState σ) (pre ++ [mkCancelDuringCb v])).1.reconnected = false ∧
    (runEngine (initState σ) (pre ++ [mkCancelDuringCb v])).2.notifs = [] ∧
    (runEngine (initState σ) (pre ++ [mkCancelDuringCb v])).2.reconnectSets = 0 := by
  rw [runEngine_pre_then_cancelDuringCb pre hpre v]
  exact ⟨rfl, rfl, rfl, rfl⟩

theorem cancel_during_callback_preserves_session_witness :
    (runEngine (initState Nat) ([] ++ [mkCancelDuringCb (some 9)])).1.session = some 9 ∧
    (runEngine (initState Nat) ([] ++ [mkCancelDuringCb (some 9)])).1.reconnected = false :=
  ⟨(cancel_during_callback_preserves_session [] (by decide) (some 9)).1,
   (cancel_during_callback_preserves_session [] (by decide) (some 9)).2.1⟩

/-- C6: the reconnected flag is monotone (once true it never returns
false), and at most one non-null session value is ever produced and stored
per handle. -/
theorem reconnected_monotone_single_session {σ : Type} (att : List (Attempt σ)) :
    (∀ s : EngineState σ, s.reconnected = true →
      (runEngine s att).1.reconnected = true) ∧
    ((runEngine (initState σ) att).2.stores.filter Option.isSome).length ≤ 1 :=
  ⟨fun s h => runEngine_mono_reconnected att s h,
   le_trans (List.length_filter_le _ _) (runEngine_log_bound att (initState σ)).1⟩

theorem reconnected_monotone_single_session_witness :
    (runEngine (⟨true, some 4, some (), 0, false, 0⟩ : EngineState Nat)
      [mkSuccess (some 5)]).1.reconnected = true :=
  (reconnected_monotone_single_session [mkSuccess (some 5)]).1
    ⟨true, some 4, some (), 0, false, 0⟩ rfl

/-- C7: `cancel()` is safe to invoke repeatedly: every invocation calls the
cleanup callback exactly once; an invocation after the first changes
nothing but the cleanup counter; after cancellation a run performs no
observable action; and a cancel while the initial timer is pending means
the health check and the reconnection callback are never invoked. -/
theorem cancel_idempotent_and_final {σ : Type} (h s : EngineState σ)
    (att : List (Attempt σ)) (a : Attempt σ) (rest : List (Attempt σ)) :
    (cancelHandle h).cleanupCalls = h.cleanupCalls + 1 ∧
    cancelHandle (cancelHandle h) =
      { cancelHandle h with cleanupCalls := (cancelHandle h).cleanupCalls + 1 } ∧
    (s.cancelled = true → (runEngine s att).2 = RunLog.empty σ) ∧
    (a.cancelBefore = true →
      (runEngine (initState σ) (a :: rest)).2.cbCalls = 0 ∧
      (runEngine (initState σ) (a :: rest)).2.hcCalls = 0) := by
  refine ⟨rfl, rfl, runEngine_cancelled att s, fun hb => ?_⟩
  simp [runEngine, hb, RunLog.empty]

theorem cancel_idempotent_and_final_witness :
    (cancelHandle (initState Nat)).cleanupCalls = (initState Nat).cleanupCalls + 1 ∧
    (runEngine (cancelHandle (initState Nat)) [mkSuccess (some 2)]).2 =
      RunLog.empty Nat ∧
    (runEngine (initState Nat)
      [(⟨true, false, Except.ok (), false, Except.ok (some 1)⟩ : Attempt Nat)]).2.cbCalls = 0 :=
  ⟨(cancel_idempotent_and_final (initState Nat) (cancelHandle (initState Nat))
      [mkSuccess (some 2)] ⟨true, false, Except.ok (), false, Except.ok (some 1)⟩ []).1,
   (cancel_idempotent_and_final (initState Nat) (cancelHandle (initState Nat))
      [mkSuccess (some 2)] ⟨true, false, Except.ok (), false, Except.ok (some 1)⟩ []).2.2.1 rfl,
   ((cancel_idempotent_and_final (initState Nat) (cancelHandle (initState Nat))
      [mkSuccess (some 2)] ⟨true, false, Except.ok (), false, Except.ok (some 1)⟩ []).2.2.2 rfl).1⟩

/-- C8: over every run, the success notification is delivered at most once,
the auth-failure notification at most once, and never both (their combined
count never exceeds one). -/
theorem notifications_at_most_once_each_never_both {σ : Type} (att : List (Attempt σ)) :
    (runEngine (initState σ) att).2.notifs.count successMsg ≤ 1 ∧
    (runEngine (initState σ) att).2.notifs.count authMsg ≤ 1 ∧
    (runEngine (initState σ) att).2.notifs.count successMsg +
      (runEngine (initState σ) att).2.notifs.count authMsg ≤ 1 := by
  have hlen := (runEngine_log_bound att (initState σ)).2.1
  have key : ∀ l : List String, l.length ≤ 1 →
      l.count successMsg + l.count authMsg ≤ 1 := by
    intro l hl
    match l with
    | [] => simp
    | [x] =>
      simp only [List.count_cons, List.count_nil, beq_iff_eq, Nat.zero_add]
      by_cases h1 : x = successMsg
      · have h2 : ¬x = authMsg := fun h2 => absurd (h1.symm.trans h2) (by decide)
        simp [h1, h2]
        decide
      · by_cases h2 : x = authMsg
        · simp [h1, h2]
          decide
        · simp [h1, h2]
    | x :: y :: t => simp at hl
  have hkey := key _ hlen
  exact ⟨by omega, by omega, hkey⟩

/-- C10: a callback that resolves with null/undefined still counts as a
success when the run is not cancelled: the flag is set, the success
notification is sent, and the stored session (returned by `getSession()`)
is that null value. -/
theorem null_session_counts_as_success {σ : Type} (es : List JsError)
    (hes : ∀ e ∈ es, e.isAuth = false) :
    (runEngine (initState σ) (es.map mkHcFail ++ [mkSuccess none])).1.reconnected = true ∧
    (runEngine (initState σ) (es.map mkHcFail ++ [mkSuccess none])).2.notifs = [successMsg] ∧
    (runEngine (initState σ) (es.map mkHcFail ++ [mkSuccess none])).1.session = none ∧
    (runEngine (initState σ) (es.map mkHcFail ++ [mkSuccess none])).2.stores = [none] := by
  rw [runEngine_hcFails_then_success es hes none]
  exact ⟨rfl, rfl, rfl, rfl⟩

theorem null_session_counts_as_success_witness :
    (runEngine (initState Nat) (([] : List JsError).map mkHcFail ++
        [mkSuccess none])).1.reconnected = true ∧
    (runEngine (initState Nat) (([] : List JsError).map mkHcFail ++
        [mkSuccess none])).1.session = none :=
  ⟨(null_session_counts_as_success [] (by decide)).1,
   (null_session_counts_as_success [] (by decide)).2.2.1⟩

/-- C4 counterexample: in Scenario C (two `fail` calls with distinct
operations, starting from `online` mode), exactly one warning line is
printed — but it is printed synchronously during the first call, when only
the first failure is stored, so it does not contain the second operation's
description, contrary to the claim. -/
theorem scenarioC_single_warning_lacks_second_operation :
    printedLines (connectionState.fail failSession).2 ++
      printedLines ((connectionState.fail failSession).1.fail failMachine).2 =
      [scenarioCLine] ∧
    strContains scenarioCLine "Machine registration" = false := by
  exact ⟨by decide, by decide⟩

/-- C4 amended: in Scenario C exactly one warning line is printed, and it
contains the first call's operation description but not the second's; the
second failure is stored silently, so the failure set used for any
subsequent print reflects both operations. -/
theorem scenarioC_amended :
    (printedLines (connectionState.fail failSession).2 ++
      printedLines ((connectionState.fail failSession).1.fail failMachine).2).length = 1 ∧
    strContains scenarioCLine "Session creation" = true ∧
    strContains scenarioCLine "Machine registration" = false ∧
    ((connectionState.fail failSession).1.fail failMachine).1.failures =
      [("Session creation", failSession), ("Machine registration", failMachine)] ∧
    strContains (((connectionState.fail failSession).1.fail failMachine).1.print).1
      "Session creation" = true ∧
    strContains (((connectionState.fail failSession).1.fail failMachine).1.print).1
      "Machine registration" = true := by
  exact ⟨by decide, by decide, by decide, by decide, by decide, by decide⟩

/-- C5: a warning is printed exactly once per online-to-offline transition:
a `fail` whose starting mode is `offline` stores/overwrites the failure
under its operation key but prints nothing; `recover` clears the failure
map and sets the mode to `online`; a `fail` from `online` prints (one
warning) and flips the mode to `offline`; and after `recover` a subsequent
`fail` prints exactly one new warning over the freshly cleared map. -/
theorem offline_dedup_per_transition (s : OfflineState) (f g : OfflineFailure) :
    (s.state = ConnMode.offline →
      (s.fail f).2 = none ∧
      (s.fail f).1 = { s with failures := mapSet s.failures f.operation f }) ∧
    (s.recover = { s with state := ConnMode.online, failures := [] }) ∧
    (s.state = ConnMode.online →
      (s.fail f).2.isSome = true ∧ (s.fail f).1.state = ConnMode.offline) ∧
    ((s.recover.fail g).2.isSome = true ∧
      (s.recover.fail g).1.failures = [(g.operation, g)]) := by
  cases hs : s.state <;>
    simp [OfflineState.fail, OfflineState.recover, mapSet, hs]

theorem offline_dedup_per_transition_witness :
    ((⟨ConnMode.offline, [], "Claude"⟩ : OfflineState).fail failMachine).2 = none ∧
    (connectionState.fail failSession).2.isSome = true ∧
    (connectionState.recover.fail failSession).2.isSome = true :=
  ⟨((offline_dedup_per_transition ⟨ConnMode.offline, [], "Claude"⟩ failMachine
      failSession).1 rfl).1,
   ((offline_dedup_per_transition connectionState failSession failSession).2.2.1 rfl).1,
   (offline_dedup_per_transition connectionState failSession failSession).2.2.2.1⟩

/-- C9: `isNetworkError` returns true exactly on the six listed network
error codes, and false on `undefined`, on `''`, and on the HTTP status
strings `'401'`, `'404'`, `'500'` (as on every other string, by the first
conjunct). -/
theorem isNetworkError_iff_six_codes :
    (∀ c : String, isNetworkError (some c) = true ↔
      (c = "ECONNREFUSED" ∨ c = "ENOTFOUND" ∨ c = "ETIMEDOUT" ∨
       c = "ECONNRESET" ∨ c = "EHOSTUNREACH" ∨ c = "ENETUNREACH")) ∧
    isNetworkError none = false ∧
    isNetworkError (some "401") = false ∧
    isNetworkError (some "404") = false ∧
    isNetworkError (some "500") = false ∧
    isNetworkError (some "") = false := by
  refine ⟨fun c => ?_, rfl, by decide, by decide, by decide, by decide⟩
  simp [isNetworkError, NETWORK_ERROR_CODES]

end Happier
